import Mathlib

/-!
Verification development for the cita-cloud `controller_poc` core.

Shallow embedding conventions:
- bytes (`Vec<u8>`) are `List Nat`; byte-string equality is list equality;
- the external collaborators (KMS, storage, network, executor) are reached over
  RPC in the source; their calls are modelled as explicit function parameters,
  a `none`/`Except.error` result standing for a failed RPC;
- operations that can panic in the source (`unwrap` on `None`, out-of-bounds
  `Vec` indexing) return `Option`, with `none` modelling the panic;
- hash maps (`HashMap<Vec<u8>, _>`) are association lists with unique keys;
- `prost` encoding of a message into a fresh growable buffer cannot fail, so the
  source branches on encode errors are modelled as total encoding functions.
-/

/-- Errors of `Authentication::check_raw_tx` and its helpers (src/auth.rs).
    The source returns `String`s; each constructor below stands for exactly one
    source message: `invalidRawTx` = "Invalid raw tx", `witnessNone` =
    "witness is none", `txNone` = "tx is none", `invalidVersion` =
    "Invalid version", `invalidNonce` = "Invalid nonce", `invalidValidUntil` =
    "Invalid valid_until_block", `invalidValue` = "Invalid value",
    `invalidChainId` = "Invalid chain_id", `dup` = "dup", `invalidTxHash` =
    "Invalid tx_hash", `invalidSender` = "Invalid sender", `kmsRecoverFailed` =
    "kms recover signature failed", `utxoTxNone` = "utxo tx is none",
    `invalidUtxoTxHash` = "Invalid utxo tx hash", `invalidSenderIndex i` =
    "Invalid sender index: i", `kmsRecoverFailedIndex i` =
    "kms recover signature failed index: i". -/
inductive AuthError where
  | invalidRawTx
  | witnessNone
  | txNone
  | invalidVersion
  | invalidNonce
  | invalidValidUntil
  | invalidValue
  | invalidChainId
  | dup
  | invalidTxHash
  | invalidSender
  | kmsRecoverFailed
  | utxoTxNone
  | invalidUtxoTxHash
  | invalidSenderIndex (i : Nat)
  | kmsRecoverFailedIndex (i : Nat)
  deriving DecidableEq

/-- `Witness` of cita_ng_proto: declared sender address and signature. -/
structure Witness where
  sender : List Nat
  signature : List Nat
  deriving DecidableEq

/-- `Transaction` of cita_ng_proto (the fields read by src/auth.rs checks,
    plus the remaining payload fields carried through encoding). -/
structure Transaction where
  version : Nat
  /-- the proto field is named `to`, a reserved word here -/
  to_addr : List Nat
  nonce : List Nat
  quota : Nat
  valid_until_block : Nat
  data : List Nat
  value : List Nat
  chain_id : List Nat
  deriving DecidableEq

/-- `UtxoTransaction` of cita_ng_proto. -/
structure UtxoTransaction where
  version : Nat
  pre_tx_hash : List Nat
  output : List Nat
  lock_id : Nat
  deriving DecidableEq

/-- The `NormalTx` payload of a raw transaction. -/
structure NormalTx where
  transaction : Option Transaction
  transaction_hash : List Nat
  witness : Option Witness
  deriving DecidableEq

/-- The `UtxoTx` payload of a raw transaction. -/
structure UtxoTx where
  transaction : Option UtxoTransaction
  transaction_hash : List Nat
  witnesses : List Witness
  deriving DecidableEq

/-- `raw_transaction::Tx`: the tagged union of the two transaction variants. -/
inductive Tx where
  | NormalTx (t : NormalTx)
  | UtxoTx (u : UtxoTx)
  deriving DecidableEq

/-- `RawTransaction` of cita_ng_proto. -/
structure RawTransaction where
  tx : Option Tx
  deriving DecidableEq

/-- `BLOCKLIMIT` (src/auth.rs line 22). -/
def BLOCKLIMIT : Nat := 100

/-- State of `Authentication` (src/auth.rs). `kms_port` and `storage_port`
    only route RPC calls and are modelled by the oracle parameters of the
    operations, so they are not part of the state. `history_hashes` is the
    `HashMap<u64, Vec<Vec<u8>>>` replay window as an association list. -/
structure Authentication where
  history_hashes : List (Nat × List (List Nat))
  current_block_number : Nat
  deriving DecidableEq

/-- `Authentication::check_tx_hash`: scan every height of the history window
    and reject with "dup" when any recorded hash list contains the tx hash. -/
def checkTxHash (a : Authentication) (tx_hash : List Nat) : Except AuthError Unit :=
  if a.history_hashes.any (fun p => p.2.contains tx_hash) then
    Except.error AuthError.dup
  else
    Except.ok ()

/-- `Authentication::check_transaction` (src/auth.rs lines 77-95): structural
    checks in source order. Note the chain_id check compares against the
    literal 32-byte zero vector `vec![0u8; 32]`, not a configured chain id
    (the state holds none; the source comment reads
    "todo version and chain_id need utxo_set"). -/
def checkTransaction (a : Authentication) (tx : Transaction) : Except AuthError Unit :=
  if tx.version ≠ 0 then Except.error AuthError.invalidVersion
  else if tx.nonce.length > 128 then Except.error AuthError.invalidNonce
  else if tx.valid_until_block ≤ a.current_block_number ∨
          tx.valid_until_block > a.current_block_number + BLOCKLIMIT then
    Except.error AuthError.invalidValidUntil
  else if tx.value.length ≠ 32 then Except.error AuthError.invalidValue
  else if tx.chain_id.length ≠ 32 ∨ tx.chain_id ≠ List.replicate 32 0 then
    Except.error AuthError.invalidChainId
  else Except.ok ()

/-- The witness loop of the `UtxoTx` arm of `check_raw_tx` (src/auth.rs lines
    167-183): recover each signature and compare to the declared sender,
    keeping the running index for the error message. -/
def checkWitnesses (kmsVerifySig : List Nat → List Nat → Option (List Nat))
    (tx_hash : List Nat) : List Witness → Nat → Except AuthError (List Nat)
  | [], _ => Except.ok tx_hash
  | w :: ws, i =>
    match kmsVerifySig tx_hash w.signature with
    | some address =>
      if address == w.sender then checkWitnesses kmsVerifySig tx_hash ws (i + 1)
      else Except.error (AuthError.invalidSenderIndex i)
    | none => Except.error (AuthError.kmsRecoverFailedIndex i)

/-- `Authentication::check_raw_tx` (src/auth.rs lines 97-190).
    `kmsVerifyHash h bytes` models `verify_tx_hash` over RPC (`none` = the RPC
    itself failed); `kmsVerifySig h sig` models `verify_tx_signature`
    (`none` = the RPC failed, `some addr` = recovered address); `encodeTx` and
    `encodeUtxo` model prost encoding. The `NormalTx` arm checks, in source
    order: witness present, transaction present, structural checks, the replay
    window, the claimed hash via KMS, the signature via KMS. Note that when
    the `verify_tx_hash` RPC itself fails the source `if let Ok(is_ok) = ...`
    silently falls through, skipping the hash check. -/
def checkRawTx (kmsVerifyHash : List Nat → List Nat → Option Bool)
    (kmsVerifySig : List Nat → List Nat → Option (List Nat))
    (encodeTx : Transaction → List Nat)
    (encodeUtxo : UtxoTransaction → List Nat)
    (a : Authentication) (raw : RawTransaction) : Except AuthError (List Nat) :=
  match raw.tx with
  | none => Except.error AuthError.invalidRawTx
  | some (Tx.NormalTx normal_tx) =>
    match normal_tx.witness with
    | none => Except.error AuthError.witnessNone
    | some witness =>
      match normal_tx.transaction with
      | none => Except.error AuthError.txNone
      | some tx =>
        match checkTransaction a tx with
        | Except.error e => Except.error e
        | Except.ok _ =>
          let tx_bytes := encodeTx tx
          let tx_hash := normal_tx.transaction_hash
          match checkTxHash a tx_hash with
          | Except.error e => Except.error e
          | Except.ok _ =>
            match kmsVerifyHash tx_hash tx_bytes with
            | some false => Except.error AuthError.invalidTxHash
            | _ =>
              match kmsVerifySig tx_hash witness.signature with
              | some address =>
                if address == witness.sender then Except.ok tx_hash
                else Except.error AuthError.invalidSender
              | none => Except.error AuthError.kmsRecoverFailed
  | some (Tx.UtxoTx utxo_tx) =>
    match utxo_tx.transaction with
    | none => Except.error AuthError.utxoTxNone
    | some tx =>
      let tx_bytes := encodeUtxo tx
      let tx_hash := utxo_tx.transaction_hash
      match kmsVerifyHash tx_hash tx_bytes with
      | some false => Except.error AuthError.invalidUtxoTxHash
      | _ => checkWitnesses kmsVerifySig tx_hash utxo_tx.witnesses 0

/-- `CompactBlockBody` of cita_ng_proto: the list of tx hashes of a block. -/
structure CompactBlockBody where
  tx_hashes : List (List Nat)
  deriving DecidableEq

/-- `CompactBlock` of cita_ng_proto (src/controller.rs only reads `body`). -/
structure CompactBlock where
  body : Option CompactBlockBody
  deriving DecidableEq

/-- `NetworkMsg` of cita_ng_proto. The proto field `type` (written `r#type` in
    the source) is a reserved word here and is named `msg_type`. -/
structure NetworkMsg where
  module : String
  msg_type : String
  origin : Nat
  msg : List Nat
  deriving DecidableEq

/-- Environment of `Controller::process_network_msg` (src/controller.rs):
    prost decoding of the payload and the effects of the two handled branches.
    `decodeRawTx` and `decodeBlock` model `RawTransaction::decode` and
    `CompactBlock::decode` (`none` = decode error); `sendRawTransaction` models
    `Controller::rpc_send_raw_transaction` (authentication, pool insertion and
    gossip, all behind locks); `poolHasTx h` models `pool.get_tx(h).is_some()`;
    the `chain.add_block` effect leaves no observable result here. -/
structure NetEnv where
  decodeRawTx : List Nat → Option RawTransaction
  sendRawTransaction : RawTransaction → Except String (List Nat)
  decodeBlock : List Nat → Option CompactBlock
  poolHasTx : List Nat → Bool

/-- `Controller::process_network_msg` (src/controller.rs lines 187-231):
    dispatch on the message type string. The `"raw_tx"` arm decodes and
    forwards to `rpc_send_raw_transaction`; the `"block"` arm decodes, requires
    a body whose every tx hash is in the pool, then adds the block; every other
    type hits the wildcard arm, which panics ("unknown network message"),
    modelled by `none`. -/
def processNetworkMsg (env : NetEnv) (m : NetworkMsg) : Option (Except String Unit) :=
  if m.msg_type = "raw_tx" then
    some (match env.decodeRawTx m.msg with
      | some raw =>
        match env.sendRawTransaction raw with
        | Except.ok _ => Except.ok ()
        | Except.error e => Except.error e
      | none => Except.error "Decode raw transaction failed")
  else if m.msg_type = "block" then
    some (match env.decodeBlock m.msg with
      | some block =>
        match block.body with
        | some block_body =>
          if block_body.tx_hashes.all env.poolHasTx then Except.ok ()
          else Except.error "block is invalid"
        | none => Except.error "block body is empty"
      | none => Except.error "Decode block failed")
  else none

/-- `BlockHeader` of cita_cloud_proto (src/chain.rs). -/
structure BlockHeader where
  prevhash : List Nat
  timestamp : Nat
  height : Nat
  transactions_root : List Nat
  proposer : List Nat
  deriving DecidableEq

/-- `Block` of cita_cloud_proto as used by src/chain.rs. The chain code only
    ever consumes the body through `full_to_compact(..).body.unwrap().tx_hashes`
    (util.rs, outside src), so `body` carries the transaction hashes of the raw
    transactions in the block body, `none` modelling an absent body. -/
structure Block where
  version : Nat
  header : Option BlockHeader
  body : Option (List (List Nat))
  proof : List Nat
  deriving DecidableEq

/-- Modelled from the spec: `full_to_compact` (util.rs, not under src) turns a
    full block into a compact block whose body lists the tx hashes of the raw
    transactions; the body is absent exactly when the full body is absent. -/
def fullToCompactTxHashes (b : Block) : Option (List (List Nat)) :=
  b.body

/-- `BftProposal` of cita_cloud_proto common: block plus early state root and
    proof (the latter two are not read by `commit_block`). -/
structure BftProposal where
  proposal : Option Block
  pre_state_root : List Nat
  pre_proof : List Nat
  deriving DecidableEq

/-- Errors of `Chain` operations (src/chain.rs uses crate::error::Error, not
    under src). Constructors follow the variants and `ExpectError` strings the
    chain code produces: `candidateChainNoProof` = ExpectError
    "candidate_chain has no proof", `candidateChainDupTx` = ExpectError
    "candidate_chain has dup tx", `candidateChainInterrupted` = ExpectError
    "candidate_chain interrupted", `candidateChainDoesNotFit` = ExpectError
    "candidate_chain cannot fit finalized block" (source wording uses a
    contraction), `decodeProposalError` = DecodeError
    "decode ProposalEnum failed", `noProposalFound` = ExpectError
    "no proposal found", `noneBlockHeader` = the error `get_block_hash`
    (util.rs, modelled from the spec) returns on a missing header. -/
inductive CError where
  | proposalTooLow (h bn : Nat)
  | proposalTooHigh (h bn : Nat)
  | decodeProposalError
  | noProposalFound
  | noForkTree
  | noneBlockHeader
  | candidateChainNoProof
  | candidateChainDupTx
  | candidateChainInterrupted
  | candidateChainDoesNotFit
  deriving DecidableEq

/-- One level of the fork tree: the `HashMap<Vec<u8>, Block>` keyed by block
    hash, as an association list. -/
abbrev ForkLevel := List (List Nat × Block)

/-- `HashMap::contains_key` on a fork-tree level. -/
def levelContainsKey (lvl : ForkLevel) (k : List Nat) : Bool :=
  lvl.any (fun p => p.1 == k)

/-- `HashMap::get` on a fork-tree level. -/
def levelGet (lvl : ForkLevel) (k : List Nat) : Option Block :=
  (lvl.find? (fun p => p.1 == k)).map (fun p => p.2)

/-- `HashMap::insert` of a key known to be absent. -/
def levelInsert (lvl : ForkLevel) (k : List Nat) (b : Block) : ForkLevel :=
  (k, b) :: lvl

/-- `HashMap::remove` on a fork-tree level. -/
def levelRemove (lvl : ForkLevel) (k : List Nat) : ForkLevel :=
  lvl.filter (fun p => !(p.1 == k))

/-- `Vec::resize(n, pad)`: truncate or pad on the right to length `n`. -/
def listResize {α : Type} (l : List α) (n : Nat) (pad : α) : List α :=
  if n ≤ l.length then l.take n else l ++ List.replicate (n - l.length) pad

/-- State of `Chain` (src/chain.rs). `pool`, `auth`, `genesis`, `key_id` and
    `node_address` are shared handles or constants not read by the embedded
    operations and are elided; `finalize_block` writes only to storage, the
    authenticator and the pool, all outside this state. -/
structure Chain where
  block_number : Nat
  block_hash : List Nat
  block_delay_number : Nat
  fork_tree : List ForkLevel
  main_chain : List (List Nat)
  main_chain_tx_hash : List (List Nat)
  candidate_block : Option (Nat × List Nat × Block)
  deriving DecidableEq

/-- `Chain::new` (src/chain.rs lines 68-98). Note the construction loop is
    `for _ in 0..=fork_tree_size`, pushing `fork_tree_size + 1` empty levels
    into a vector whose capacity was reserved as `fork_tree_size`. -/
def chainNew (block_delay_number current_block_number : Nat)
    (current_block_hash : List Nat) : Chain :=
  let fork_tree_size := block_delay_number * 2 + 2
  { block_number := current_block_number
    block_hash := current_block_hash
    block_delay_number := block_delay_number
    fork_tree := List.replicate (fork_tree_size + 1) []
    main_chain := []
    main_chain_tx_hash := []
    candidate_block := none }

/-- `Chain::add_remote_proposal` (src/chain.rs lines 179-202). The source
    begins with `block.header.clone().unwrap()`, so a missing header panics
    (`none`); in-range heights index `fork_tree[height - block_number - 1]`
    (an out-of-range index would also panic). -/
def addRemoteProposal (c : Chain) (block_hash : List Nat) (block : Block) :
    Option (Except CError (Bool × Chain)) :=
  match block.header with
  | none => none
  | some header =>
    if header.height ≤ c.block_number then
      some (Except.error (CError.proposalTooLow header.height c.block_number))
    else if header.height - c.block_number > c.block_delay_number * 2 + 2 then
      some (Except.error (CError.proposalTooHigh header.height c.block_number))
    else if header.height - c.block_number - 1 < c.fork_tree.length then
      if levelContainsKey (c.fork_tree.getD (header.height - c.block_number - 1) []) block_hash then
        some (Except.ok (false, c))
      else
        let idx := header.height - c.block_number - 1
        let newLvl := levelInsert (c.fork_tree.getD idx []) block_hash block
        some (Except.ok (true, { c with fork_tree := c.fork_tree.set idx newLvl }))
    else none

/-- The backwards trace `for i in 0..index` inside `commit_block`
    (src/chain.rs lines 513-544). `levels` is the sequence of fork-tree level
    indices visited, i.e. `index - i - 1` for `i = 0, 1, ...`, so the caller
    passes `(List.range index).reverse`. Arguments accumulate
    `candidate_chain` (head to root) and `candidate_chain_tx_hash`; the result
    carries them together with the final `prev_hash`. A traced block must be
    present at the level (else `candidate_chain interrupted`), must carry a
    non-empty proof, and must not repeat a tx hash already accumulated; its
    `header.unwrap()` and `body.unwrap()` panics are modelled by `none`. -/
def traceWalk (fork_tree : List ForkLevel) :
    List Nat → List Nat → List (List Nat) → List (List Nat) →
    Option (Except CError (List (List Nat) × List (List Nat) × List Nat))
  | [], prev_hash, cand, candTx => some (Except.ok (cand, candTx, prev_hash))
  | lvlIdx :: rest, prev_hash, cand, candTx =>
    if lvlIdx < fork_tree.length then
      let map := fork_tree.getD lvlIdx []
      match levelGet map prev_hash with
      | some prev_full_block =>
        if prev_full_block.proof = [] then
          some (Except.error CError.candidateChainNoProof)
        else
          match fullToCompactTxHashes prev_full_block with
          | none => none
          | some txs =>
            if txs.any (fun h => candTx.contains h) then
              some (Except.error CError.candidateChainDupTx)
            else
              match prev_full_block.header with
              | none => none
              | some ph =>
                traceWalk fork_tree rest ph.prevhash (cand ++ [prev_hash]) (candTx ++ txs)
      | none => some (Except.error CError.candidateChainInterrupted)
    else none

/-- The body of the `for (index, _map) in self.fork_tree.iter_mut().enumerate()`
    loop of `commit_block` (src/chain.rs lines 498-635), at a given `index`.
    The loop body never consults the level map `_map` itself; it either returns
    (`Ok` or `Err`) or `break`s, and a `break` falls through to
    `Err(NoForkTree)` after the loop. Since `bft_proposal.proposal` is moved in
    the first iteration, the body only ever runs with `index = 0`.
    The result pairs the returned outcome with the chain state after the call
    (the source returns `(ConsensusConfiguration, ChainStatus)` assembled from
    the authenticator-owned system config, elided here); `none` is a panic.
    `hashHeader` models `get_block_hash` = `hash_data(encode(header))`
    (util.rs, modelled from the spec). Finalisation of a block writes to
    storage, the authenticator and the pool, none of which are chain state;
    note the source finalises `full_block.clone()` (the committed proposal)
    for every hash of the finalized prefix, and accumulates the proposal
    body tx hashes once per finalized block. -/
def commitLoopBody (hashHeader : BlockHeader → List Nat) (c : Chain)
    (block0 : Block) (proof : List Nat) (index : Nat) :
    Option (Except CError Unit × Chain) :=
  let full_block : Block := { block0 with proof := proof }
  match full_block.header with
  | none => some (Except.error CError.noneBlockHeader, c)
  | some hdr =>
    match fullToCompactTxHashes full_block with
    | none => none
    | some txs0 =>
      match traceWalk c.fork_tree ((List.range index).reverse)
          hdr.prevhash [hashHeader hdr] txs0 with
      | none => none
      | some (Except.error e) => some (Except.error e, c)
      | some (Except.ok (cand, candTx, prev_hash)) =>
        if prev_hash ≠ c.block_hash then
          match cand.getLast? with
          | none => none
          | some blk_hash =>
            if 0 < c.fork_tree.length then
              some (Except.error CError.candidateChainDoesNotFit,
                { c with fork_tree :=
                    c.fork_tree.set 0 (levelRemove (c.fork_tree.getD 0 []) blk_hash) })
            else none
        else if cand.length > c.main_chain.length then
          let c1 : Chain := { c with main_chain := cand.reverse, main_chain_tx_hash := candTx }
          if c1.main_chain.length > c1.block_delay_number then
            let finalized_blocks_number := c1.main_chain.length - c1.block_delay_number
            let finalized := c1.main_chain.take finalized_blocks_number
            let new_main_chain := c1.main_chain.drop finalized_blocks_number
            let finalized_tx_hash_list := finalized.foldl (fun acc _ => acc ++ txs0) []
            match finalized.get? (finalized_blocks_number - 1) with
            | none => none
            | some new_hash =>
              some (Except.ok (),
                { c1 with
                    block_number := c1.block_number + finalized_blocks_number
                    block_hash := new_hash
                    main_chain := new_main_chain
                    main_chain_tx_hash := c1.main_chain_tx_hash.filter
                      (fun h => !(finalized_tx_hash_list.contains h))
                    fork_tree := listResize (c1.fork_tree.drop finalized_blocks_number)
                      (c1.block_delay_number * 2 + 2) []
                    candidate_block := none })
          else
            some (Except.ok (), { c1 with candidate_block := none })
        else
          some (Except.error CError.noForkTree, c)

/-- `Chain::commit_block` (src/chain.rs lines 476-638). `proposal` is the
    decoded `ProposalEnum` bytes: the outer `none` models a prost decode
    failure, the inner `none` an enum without a `BftProposal`. After the bounds
    checks the fork-tree loop runs: with a block present it does all its work
    during the first iteration (`index = 0`); with no block it iterates doing
    nothing and falls through to `Err(NoForkTree)` (also the result when the
    fork tree has no levels at all, which leaves the loop body unentered). -/
def commitBlock (hashHeader : BlockHeader → List Nat) (c : Chain) (height : Nat)
    (proposal : Option (Option BftProposal)) (proof : List Nat) :
    Option (Except CError Unit × Chain) :=
  if height ≤ c.block_number then
    some (Except.error (CError.proposalTooLow height c.block_number), c)
  else if height > c.block_number + c.block_delay_number + 1 then
    some (Except.error (CError.proposalTooHigh height c.block_number), c)
  else
    match proposal with
    | none => some (Except.error CError.decodeProposalError, c)
    | some none => some (Except.error CError.noProposalFound, c)
    | some (some bft) =>
      match bft.proposal with
      | none => some (Except.error CError.noForkTree, c)
      | some block0 =>
        if c.fork_tree.length = 0 then some (Except.error CError.noForkTree, c)
        else commitLoopBody hashHeader c block0 proof 0

/-- Scenario helper: the chain state after an `add_remote_proposal` call,
    keeping the old state when the call fails or panics. -/
def afterAdd (c : Chain) (block_hash : List Nat) (b : Block) : Chain :=
  match addRemoteProposal c block_hash b with
  | some (Except.ok (_, c2)) => c2
  | _ => c

/-- Scenario helper: the chain state after a `commit_block` call, keeping the
    old state when the call panics. -/
def afterCommit (hashHeader : BlockHeader → List Nat) (c : Chain) (height : Nat)
    (proposal : Option (Option BftProposal)) (proof : List Nat) : Chain :=
  match commitBlock hashHeader c height proposal proof with
  | some (_, c2) => c2
  | none => c


instance {ε α : Type} [DecidableEq ε] [DecidableEq α] : DecidableEq (Except ε α) := by
  intro a b
  cases a <;> cases b
  case error.error e e2 =>
    exact if h : e = e2 then isTrue (by rw [h]) else isFalse (by intro hc; cases hc; exact h rfl)
  case error.ok e v => exact isFalse (by intro hc; cases hc)
  case ok.error v e => exact isFalse (by intro hc; cases hc)
  case ok.ok v v2 =>
    exact if h : v = v2 then isTrue (by rw [h]) else isFalse (by intro hc; cases hc; exact h rfl)

/-- Concrete stand-in for `hash_data(encode(header))` in the scenarios: a
    header hashes to the one-byte string of its height, so the chained
    scenario blocks at heights 1, 2, 3 have hashes [1], [2], [3]. -/
def hashHeaderModel : BlockHeader → List Nat := fun hd => [hd.height]

/-- Scenario (fork extension): header of the remote proposal at height 1,
    chained to the finalized head [0]. -/
def sHdr1 : BlockHeader :=
  { prevhash := [0], timestamp := 0, height := 1, transactions_root := [], proposer := [] }

/-- Scenario: remote proposal block at height 1, non-empty proof, one tx. -/
def sBlk1 : Block := { version := 0, header := some sHdr1, body := some [[101]], proof := [7] }

/-- Scenario: header at height 2, prevhash = hash of block 1. -/
def sHdr2 : BlockHeader :=
  { prevhash := [1], timestamp := 0, height := 2, transactions_root := [], proposer := [] }

/-- Scenario: remote proposal block at height 2, non-empty proof, one tx. -/
def sBlk2 : Block := { version := 0, header := some sHdr2, body := some [[102]], proof := [7] }

/-- Scenario: header at height 3, prevhash = hash of block 2. -/
def sHdr3 : BlockHeader :=
  { prevhash := [2], timestamp := 0, height := 3, transactions_root := [], proposer := [] }

/-- Scenario: remote proposal block at height 3, non-empty proof, one tx. -/
def sBlk3 : Block := { version := 0, header := some sHdr3, body := some [[103]], proof := [7] }

/-- Scenario: fresh chain with `block_delay_number = 2`, finalized head at
    height 0 with hash [0]. -/
def c0s : Chain := chainNew 2 0 [0]

/-- Scenario: state after adding the height-1 remote proposal. -/
def cA : Chain := afterAdd c0s [1] sBlk1

/-- Scenario: state after adding the height-2 remote proposal. -/
def cB : Chain := afterAdd cA [2] sBlk2

/-- Scenario: state after adding the height-3 remote proposal. -/
def cC : Chain := afterAdd cB [3] sBlk3

/-- Scenario: the consensus proposal committing the height-3 block. -/
def sBft3 : BftProposal := { proposal := some sBlk3, pre_state_root := [], pre_proof := [] }

/-- Scenario: the consensus proposal committing the height-1 block. -/
def sBft1 : BftProposal := { proposal := some sBlk1, pre_state_root := [], pre_proof := [] }

/-- Scenario: state after committing height 1 on `cA` (an Ok commit that does
    not finalize, since the new main chain has length 1 ≤ 2). -/
def cAfter1 : Chain := afterCommit hashHeaderModel cA 1 (some (some sBft1)) [9]

/-- Scenario (duplicate tx): block at height 1 whose body carries tx hash
    [100]. -/
def dBlk1 : Block := { version := 0, header := some sHdr1, body := some [[100]], proof := [7] }

/-- Scenario: block at height 2 whose body carries the same tx hash [100]. -/
def dBlk2 : Block := { version := 0, header := some sHdr2, body := some [[100]], proof := [7] }

/-- Scenario: state after adding the two duplicate-tx proposals. -/
def dC : Chain := afterAdd (afterAdd c0s [1] dBlk1) [2] dBlk2

/-- Scenario: the consensus proposal committing the height-2 duplicate-tx
    block. -/
def dBft2 : BftProposal := { proposal := some dBlk2, pre_state_root := [], pre_proof := [] }

/-- Scenario: a block without a header (for the header-required property). -/
def blkNoHdr : Block := { version := 0, header := none, body := some [], proof := [7] }

/-- Scenario: empty authenticator state at height 0. -/
def authW : Authentication := { history_hashes := [], current_block_number := 0 }

/-- Scenario: authenticator whose history window records tx hash [42] at
    height 1. -/
def aHist : Authentication := { history_hashes := [(1, [[42]])], current_block_number := 0 }

/-- Scenario: a structurally valid transaction whose chain_id is the 32-byte
    vector of ones (the configured chain id of a chain whose id is not zero). -/
def txOnes : Transaction :=
  { version := 0, to_addr := [], nonce := [], quota := 0, valid_until_block := 50,
    data := [], value := List.replicate 32 0, chain_id := List.replicate 32 1 }

/-- Scenario: the same transaction with the literal zero chain_id. -/
def txZeros : Transaction :=
  { version := 0, to_addr := [], nonce := [], quota := 0, valid_until_block := 50,
    data := [], value := List.replicate 32 0, chain_id := List.replicate 32 0 }

/-- Scenario: a witness declaring sender [7]. -/
def witnessW : Witness := { sender := [7], signature := [8] }

/-- Scenario: a fully valid normal raw transaction with hash [42]. -/
def rawGood : RawTransaction :=
  { tx := some (Tx.NormalTx
      { transaction := some txZeros, transaction_hash := [42], witness := some witnessW }) }

/-- Scenario: a normal raw transaction with hash [42] and no witness. -/
def rawNoWitness : RawTransaction :=
  { tx := some (Tx.NormalTx
      { transaction := some txZeros, transaction_hash := [42], witness := none }) }

/-- Scenario: a trivial network environment (nothing decodes, the pool is
    empty, sending always fails); the unknown-type dispatch never reaches
    it. -/
def envTriv : NetEnv :=
  { decodeRawTx := fun _ => none
    sendRawTransaction := fun _ => Except.error "dup"
    decodeBlock := fun _ => none
    poolHasTx := fun _ => false }

/-- Scenario: an incoming message of type "chain_status" (a type the
    specification lists, but which src/controller.rs does not handle). -/
def msgChainStatus : NetworkMsg :=
  { module := "controller", msg_type := "chain_status", origin := 0, msg := [] }

/-- Scenario: an incoming message of type "proposal". -/
def msgProposal : NetworkMsg :=
  { module := "controller", msg_type := "proposal", origin := 0, msg := [] }

/-- Replace the fork tree of a chain state (used to state the effect of
    `add_remote_proposal` without a record update in theorem statements). -/
def chainWithFork (c : Chain) (ft : List ForkLevel) : Chain :=
  { c with fork_tree := ft }

/-- Scenario: the valid transaction with `valid_until_block = 0`. -/
def txVub0 : Transaction := { txZeros with valid_until_block := 0 }

/-- Scenario: normal payload whose hash [42] sits in the `aHist` history
    window. -/
def nDup : NormalTx :=
  { transaction := some txZeros, transaction_hash := [42], witness := some witnessW }

/-- Scenario: the raw transaction wrapping `nDup`. -/
def rawDup : RawTransaction := { tx := some (Tx.NormalTx nDup) }

/-- Scenario: a utxo transaction payload. -/
def utxoW : UtxoTransaction :=
  { version := 0, pre_tx_hash := List.replicate 32 0, output := [1], lock_id := 1005 }

/-- Scenario: utxo variant with hash [43] and one witness. -/
def uW : UtxoTx :=
  { transaction := some utxoW, transaction_hash := [43], witnesses := [witnessW] }

/-- Scenario: the raw transaction wrapping `uW`. -/
def rawUtxo : RawTransaction := { tx := some (Tx.UtxoTx uW) }

/-- C1: with `block_delay_number = 2`, after adding chained remote proposals at
    heights 1, 2, 3 (non-empty proofs, linked by prevhash down to the finalized
    head), committing height 3 is claimed to trace the chain backwards, adopt
    `main_chain = [hash2, hash3]` and finalize height 1. The code does not:
    the fork-tree loop in `commit_block` does all its work at `index = 0`
    without consulting the level maps, so the backwards walk is empty and the
    proposal prevhash [2] is compared directly with the finalized head hash
    [0]; the commit returns the candidate-chain-does-not-fit error and the
    state is unchanged (`block_number = 0`, `main_chain = []`, 7 fork-tree
    levels). -/
theorem c1_commit_walk_code_bug :
    addRemoteProposal c0s [1] sBlk1 = some (Except.ok (true, cA)) ∧
    addRemoteProposal cA [2] sBlk2 = some (Except.ok (true, cB)) ∧
    addRemoteProposal cB [3] sBlk3 = some (Except.ok (true, cC)) ∧
    commitBlock hashHeaderModel cC 3 (some (some sBft3)) [9] =
      some (Except.error CError.candidateChainDoesNotFit, cC) ∧
    cC.block_number = 0 ∧ cC.main_chain = [] ∧ cC.fork_tree.length = 7 := by
  refine ⟨by decide, by decide, by decide, by decide, by decide, by decide, by decide⟩

/-- C2: two chained proposals at heights 1 and 2 whose bodies share the tx
    hash [100]; committing height 2 is claimed to return the
    candidate-chain-has-dup-tx error. The code instead returns the
    does-not-fit error (with the state unchanged): the dup-tx check sits
    inside the backwards walk `for i in 0..index`, which never runs because
    the fork-tree loop works at `index = 0` only. -/
theorem c2_dup_tx_code_bug :
    dBlk1.body = some [[100]] ∧ dBlk2.body = some [[100]] ∧
    commitBlock hashHeaderModel dC 2 (some (some dBft2)) [9] =
      some (Except.error CError.candidateChainDoesNotFit, dC) ∧
    CError.candidateChainDoesNotFit ≠ CError.candidateChainDupTx := by
  refine ⟨by decide, by decide, by decide, by decide⟩

/-- C3: the fork tree is claimed to have exactly `2·block_delay_number + 2`
    levels from construction on. The constructor loop
    `for _ in 0..=fork_tree_size` pushes one level too many: a fresh chain has
    `2·block_delay_number + 3` levels (7 for delay 2, not 6), and an Ok commit
    that does not finalize (the height-1 commit on `cA`) leaves the 7 levels
    unchanged. -/
theorem c3_fork_tree_size_code_bug :
    (∀ (d n : Nat) (h : List Nat), (chainNew d n h).fork_tree.length = 2 * d + 3) ∧
    (chainNew 2 0 [0]).fork_tree.length = 7 ∧ 7 ≠ 2 * 2 + 2 ∧
    commitBlock hashHeaderModel cA 1 (some (some sBft1)) [9] =
      some (Except.ok (), cAfter1) ∧
    cAfter1.fork_tree.length = 7 := by
  refine ⟨?_, by decide, by decide, by decide, by decide⟩
  intro d n h
  simp only [chainNew, List.length_replicate]
  omega

/-- C4: a normal transaction is claimed to be admitted only when its chain_id
    equals the configured 32-byte chain id of the system config. The
    authenticator holds no system config at all (the source comment reads
    "todo version and chain_id need utxo_set") and compares against the
    literal zero vector: a transaction carrying the configured non-zero chain
    id of ones is rejected with the invalid-chain-id error, while the
    all-zero chain id passes the check whatever the configuration. -/
theorem c4_chain_id_code_bug :
    checkTransaction authW txOnes = Except.error AuthError.invalidChainId ∧
    checkTransaction authW txZeros = Except.ok () ∧
    txOnes.chain_id.length = 32 := by
  refine ⟨by decide, by decide, by decide⟩

/-- C5: `check_raw_tx` is claimed to return the tx hash only when the KMS
    `verify_tx_hash` call succeeded and returned true, and to fail with a
    KMS-unavailable error when the call itself fails. In the source the
    result of `verify_tx_hash` is consumed with `if let Ok(is_ok) = ...`, so
    a failing KMS call (here the constant-`none` oracle) silently skips the
    hash check: the otherwise valid transaction is admitted and its claimed
    hash [42] is returned unverified. -/
theorem c5_kms_down_admits_code_bug :
    checkRawTx (fun _ _ => none) (fun _ _ => some [7]) (fun _ => []) (fun _ => [])
      authW rawGood = Except.ok [42] := by
  decide

/-- C6 counterexample: a message whose type string is "chain_status" (not one
    of the handled types) is claimed to be ignored, returning normally. The
    wildcard arm of `process_network_msg` panics ("unknown network message"),
    modelled by `none`: the call does not return normally. -/
theorem c6_unknown_counterexample :
    processNetworkMsg envTriv msgChainStatus = none ∧
    (none : Option (Except String Unit)) ≠ some (Except.ok ()) := by
  refine ⟨by decide, ?_⟩
  intro hc
  cases hc

/-- C6 amended: only the types "raw_tx" and "block" are handled by
    `process_network_msg`; a message of any other type makes the wildcard arm
    panic ("unknown network message") instead of being ignored. -/
theorem c6_unknown_msg_amended (env : NetEnv) (m : NetworkMsg)
    (h1 : m.msg_type ≠ "raw_tx") (h2 : m.msg_type ≠ "block") :
    processNetworkMsg env m = none := by
  unfold processNetworkMsg
  rw [if_neg h1, if_neg h2]

/-- C6 amended, witness: the "proposal" message type hits the panicking
    wildcard arm. -/
theorem c6_unknown_msg_amended_witness :
    processNetworkMsg envTriv msgProposal = none :=
  c6_unknown_msg_amended envTriv msgProposal (by decide) (by decide)

/-- C7: `add_remote_proposal` bounds. A block of height `h` with
    `h ≤ block_number` yields the too-low error; one with
    `h > block_number + 2·block_delay_number + 2` yields the too-high error;
    otherwise the block is inserted into `fork_tree[h - block_number - 1]`
    when no block with that hash is present there, the call answering
    `Ok(true)` exactly on fresh insertion and `Ok(false)` with the tree
    unchanged when the hash is already present. Stated for states whose fork
    tree has at least the canonical `2·block_delay_number + 2` levels (true of
    every reachable state), so the in-range index never leaves the tree. -/
theorem c7_add_remote_proposal_bounds (c : Chain) (bh : List Nat) (b : Block)
    (hd : BlockHeader) (hhdr : b.header = some hd)
    (hlen : c.block_delay_number * 2 + 2 ≤ c.fork_tree.length) :
    (hd.height ≤ c.block_number →
      addRemoteProposal c bh b =
        some (Except.error (CError.proposalTooLow hd.height c.block_number))) ∧
    (c.block_number + (c.block_delay_number * 2 + 2) < hd.height →
      addRemoteProposal c bh b =
        some (Except.error (CError.proposalTooHigh hd.height c.block_number))) ∧
    (c.block_number < hd.height →
      hd.height ≤ c.block_number + (c.block_delay_number * 2 + 2) →
      (levelContainsKey (c.fork_tree.getD (hd.height - c.block_number - 1) []) bh = true →
        addRemoteProposal c bh b = some (Except.ok (false, c))) ∧
      (levelContainsKey (c.fork_tree.getD (hd.height - c.block_number - 1) []) bh = false →
        addRemoteProposal c bh b = some (Except.ok (true, chainWithFork c
          (c.fork_tree.set (hd.height - c.block_number - 1)
            (levelInsert (c.fork_tree.getD (hd.height - c.block_number - 1) []) bh b)))))) := by
  simp only [addRemoteProposal, hhdr]
  refine ⟨?_, ?_, ?_⟩
  · intro h1
    rw [if_pos h1]
  · intro h2
    rw [if_neg (by omega), if_pos (by omega)]
  · intro h3 h4
    rw [if_neg (by omega), if_neg (by omega), if_pos (by omega)]
    constructor
    · intro hc
      simp only [List.getD, List.get?_eq_getElem?] at hc
      simp [hc]
    · intro hc
      simp only [List.getD, List.get?_eq_getElem?] at hc
      simp [hc, chainWithFork, List.getD, List.get?_eq_getElem?]

/-- C7 witness: on the fresh delay-2 chain, the height-1 proposal is in
    range, absent, and freshly inserted into level 0. -/
theorem c7_add_remote_proposal_bounds_witness :
    addRemoteProposal c0s [1] sBlk1 = some (Except.ok (true, chainWithFork c0s
      (c0s.fork_tree.set 0 (levelInsert (c0s.fork_tree.getD 0 []) [1] sBlk1)))) :=
  ((c7_add_remote_proposal_bounds c0s [1] sBlk1 sHdr1 (by decide) (by decide)).2.2
    (by decide) (by decide)).2 (by decide)

/-- C10: `add_remote_proposal` starts with `block.header.clone().unwrap()`,
    so a block without a header panics (modelled by `none`) instead of
    returning an error; with a header present (and a fork tree of at least the
    canonical size) the call always returns a value. -/
theorem c10_header_required (c : Chain) (bh : List Nat) (b : Block) :
    (b.header = none → addRemoteProposal c bh b = none) ∧
    (∀ hd : BlockHeader, b.header = some hd →
      c.block_delay_number * 2 + 2 ≤ c.fork_tree.length →
      addRemoteProposal c bh b ≠ none) := by
  constructor
  · intro h0
    simp only [addRemoteProposal, h0]
  · intro hd hhdr hlen
    simp only [addRemoteProposal, hhdr]
    split_ifs with h1 h2 h3 h4
    · simp
    · simp
    · simp
    · simp
    · exfalso
      omega

/-- C10 witness: the headerless block panics; the height-1 block with a
    header does not. -/
theorem c10_header_required_witness :
    addRemoteProposal c0s [9] blkNoHdr = none ∧
    addRemoteProposal c0s [1] sBlk1 ≠ none :=
  ⟨(c10_header_required c0s [9] blkNoHdr).1 (by decide),
   (c10_header_required c0s [1] sBlk1).2 sHdr1 (by decide) (by decide)⟩

/-- C8: for a normal transaction that reaches the valid-until check (version
    0 and nonce within bounds), the structural check rejects with the
    invalid-valid-until error exactly when `valid_until_block` falls outside
    the half-open interval `(current_block_number, current_block_number +
    BLOCKLIMIT]` with `BLOCKLIMIT = 100`; in particular `valid_until_block =
    0` is always rejected with that error. -/
theorem c8_valid_until_window (a : Authentication) (tx : Transaction)
    (hv : tx.version = 0) (hn : tx.nonce.length ≤ 128) :
    BLOCKLIMIT = 100 ∧
    (checkTransaction a tx = Except.error AuthError.invalidValidUntil ↔
      ¬ (a.current_block_number < tx.valid_until_block ∧
          tx.valid_until_block ≤ a.current_block_number + 100)) ∧
    (tx.valid_until_block = 0 →
      checkTransaction a tx = Except.error AuthError.invalidValidUntil) := by
  refine ⟨rfl, ?_, ?_⟩
  · constructor
    · intro hEq
      unfold checkTransaction at hEq
      rw [if_neg (by omega), if_neg (by omega)] at hEq
      split_ifs at hEq with hC h5 h6
      all_goals first
        | (unfold BLOCKLIMIT at hC; omega)
        | simp at hEq
    · intro hNot
      unfold checkTransaction
      rw [if_neg (by omega), if_neg (by omega),
        if_pos (by unfold BLOCKLIMIT; omega)]
  · intro h0
    unfold checkTransaction
    rw [if_neg (by omega), if_neg (by omega),
      if_pos (by unfold BLOCKLIMIT; omega)]

/-- C8 witness: the otherwise valid transaction with `valid_until_block = 0`
    at height 0. -/
theorem c8_valid_until_window_witness :
    BLOCKLIMIT = 100 ∧
    (checkTransaction authW txVub0 = Except.error AuthError.invalidValidUntil ↔
      ¬ (authW.current_block_number < txVub0.valid_until_block ∧
          txVub0.valid_until_block ≤ authW.current_block_number + 100)) ∧
    (txVub0.valid_until_block = 0 →
      checkTransaction authW txVub0 = Except.error AuthError.invalidValidUntil) :=
  c8_valid_until_window authW txVub0 (by decide) (by decide)

/-- The utxo witness loop can fail with per-index sender or KMS errors only,
    never with the replay "dup" error. -/
theorem checkWitnesses_ne_dup (kvs : List Nat → List Nat → Option (List Nat))
    (h : List Nat) : ∀ (ws : List Witness) (i : Nat),
    checkWitnesses kvs h ws i ≠ Except.error AuthError.dup := by
  intro ws
  induction ws with
  | nil =>
    intro i hc
    simp [checkWitnesses] at hc
  | cons w ws ih =>
    intro i hc
    simp only [checkWitnesses] at hc
    split at hc
    · split at hc
      · exact ih (i + 1) hc
      · simp at hc
    · simp at hc

/-- C9 counterexample: the claim quantifies over every normal raw transaction
    whose hash sits in the history window, but a witness-less normal
    transaction with hash [42] recorded in the window is rejected with the
    witness-is-none error, not the dup error: the replay check runs only
    after the witness, body and structural checks. -/
theorem c9_normal_dup_counterexample :
    checkRawTx (fun _ _ => some true) (fun _ _ => some [7]) (fun _ => []) (fun _ => [])
      aHist rawNoWitness = Except.error AuthError.witnessNone ∧
    (aHist.history_hashes.any fun p => p.2.contains [42]) = true ∧
    AuthError.witnessNone ≠ AuthError.dup := by
  refine ⟨by decide, by decide, by decide⟩

/-- C9 amended: for every utxo raw transaction, `check_raw_tx` never consults
    the replay history (its result is the same in any two authenticator
    states) and is never the dup error; for every normal raw transaction that
    passes the witness, body and structural checks and whose hash appears
    anywhere in the history window, the result is the dup error. -/
theorem c9_utxo_history_amended :
    (∀ (kvh : List Nat → List Nat → Option Bool)
       (kvs : List Nat → List Nat → Option (List Nat))
       (encT : Transaction → List Nat) (encU : UtxoTransaction → List Nat)
       (a a2 : Authentication) (u : UtxoTx),
      checkRawTx kvh kvs encT encU a { tx := some (Tx.UtxoTx u) } =
        checkRawTx kvh kvs encT encU a2 { tx := some (Tx.UtxoTx u) } ∧
      checkRawTx kvh kvs encT encU a { tx := some (Tx.UtxoTx u) } ≠
        Except.error AuthError.dup) ∧
    (∀ (kvh : List Nat → List Nat → Option Bool)
       (kvs : List Nat → List Nat → Option (List Nat))
       (encT : Transaction → List Nat) (encU : UtxoTransaction → List Nat)
       (a : Authentication) (n : NormalTx) (w : Witness) (t : Transaction),
      n.witness = some w → n.transaction = some t →
      checkTransaction a t = Except.ok () →
      (a.history_hashes.any fun p => p.2.contains n.transaction_hash) = true →
      checkRawTx kvh kvs encT encU a { tx := some (Tx.NormalTx n) } =
        Except.error AuthError.dup) := by
  constructor
  · intro kvh kvs encT encU a a2 u
    refine ⟨rfl, ?_⟩
    intro hc
    simp only [checkRawTx] at hc
    split at hc
    · simp at hc
    · split at hc
      · simp at hc
      · exact checkWitnesses_ne_dup kvs u.transaction_hash u.witnesses 0 hc
  · intro kvh kvs encT encU a n w t hw ht hct hhist
    simp only [checkRawTx, hw, ht, hct, checkTxHash]
    rw [hhist]
    simp

/-- C9 amended, witness: with hash [42] in the history window, the valid
    normal transaction is rejected as dup while the utxo transaction with the
    same window present is not. -/
theorem c9_utxo_history_amended_witness :
    checkRawTx (fun _ _ => some true) (fun _ _ => some [7]) (fun _ => []) (fun _ => [])
      aHist rawDup = Except.error AuthError.dup ∧
    checkRawTx (fun _ _ => some true) (fun _ _ => some [7]) (fun _ => []) (fun _ => [])
      aHist rawUtxo ≠ Except.error AuthError.dup :=
  ⟨c9_utxo_history_amended.2 (fun _ _ => some true) (fun _ _ => some [7]) (fun _ => [])
      (fun _ => []) aHist nDup witnessW txZeros (by decide) (by decide) (by decide) (by decide),
   (c9_utxo_history_amended.1 (fun _ _ => some true) (fun _ _ => some [7]) (fun _ => [])
      (fun _ => []) aHist aHist uW).2⟩
